import Mathlib

/-!
Verification development for the MediCall video-call application
(Express backend managing AWS Chime SDK meetings, React frontend).

The backend keeps an in-memory table mapping a meeting title to its
provider meeting object, its attendee roster, and its recording state
(backend source: the Express server file).  The frontend holds a local
roster snapshot updated by a presence handler and a transient
notification queue (frontend source: App.jsx).

All provider calls (create meeting, create attendee, create or delete a
media capture pipeline) are modelled as explicit oracle arguments, so a
handler is a pure function from the request, the current store and the
provider outcome to the HTTP response and the next store.  JavaScript
object field access and truthiness are embedded explicitly below.
-/

namespace MediCall

/-- JavaScript truthiness of an optional string field: an absent field
(undefined) and null are falsy, and so is the empty string. -/
def jsTruthy : Option String → Bool
  | none => false
  | some s => !s.isEmpty

/-- The JavaScript idiom v or-else d on strings (used as
data.roster[attendeeId] || 'Someone'): picks d when the value is
undefined or an empty string. -/
def jsOr (v : Option String) (d : String) : String :=
  match v with
  | none => d
  | some s => if s.isEmpty then d else s

/-- Reading a key of a JavaScript object modelled as an association
list in insertion order. -/
def lookupKey (l : List (String × α)) (k : String) : Option α :=
  match l with
  | [] => none
  | p :: rest => if p.1 = k then some p.2 else lookupKey rest k

/-- JavaScript object assignment obj[k] = v: replaces the value of an
existing key in place, otherwise appends the new key at the end
(insertion order). -/
def setKey (l : List (String × α)) (k : String) (v : α) : List (String × α) :=
  match l with
  | [] => [(k, v)]
  | p :: rest => if p.1 = k then (k, v) :: rest else p :: setKey rest k v

/-- JavaScript delete obj[k]: removes the key, a no-op when absent. -/
def eraseKey (l : List (String × α)) (k : String) : List (String × α) :=
  l.filter (fun p => p.1 ≠ k)

/-- Provider-side meeting object: the fields of the AWS Chime Meeting
that the server reads (MeetingId, ExternalMeetingId, MediaRegion,
MeetingArn). -/
structure ProviderMeeting where
  meetingId : String
  externalMeetingId : String
  mediaRegion : String
  meetingArn : String
deriving DecidableEq, Repr

/-- Provider-side attendee object: AttendeeId and ExternalUserId. -/
structure Attendee where
  attendeeId : String
  externalUserId : String
deriving DecidableEq, Repr

/-- The attendees object of a meeting: attendeeId mapped to display
name, in insertion order. -/
abbrev Roster := List (String × String)

/-- One entry of the backend meetings table: the provider meeting, the
roster, and the recording fields pipelineId / recordMode (absent until
a recording is started; pipelineId is set to null on stop, which like
absence is falsy, so both are modelled as none). -/
structure MeetingData where
  meeting : ProviderMeeting
  attendees : Roster
  pipelineId : Option String := none
  recordMode : Option String := none
deriving DecidableEq, Repr

/-- The backend in-memory meetings table, title mapped to its data. -/
abbrev Store := List (String × MeetingData)

/-- The request the server builds for CreateMeetingCommand:
ClientRequestToken (a fresh uuid), MediaRegion (the literal us-east-1)
and ExternalMeetingId (the title). -/
structure CreateMeetingRequest where
  clientRequestToken : String
  mediaRegion : String
  externalMeetingId : String
deriving DecidableEq, Repr

/-- Response of POST /api/create: 200 with the meeting object, or an
error status with a message. -/
inductive CreateResp
  | meetingOk (meeting : ProviderMeeting)
  | httpError (status : Nat) (error : String)
deriving DecidableEq, Repr

/-- Result of a create call: the HTTP response, the meetings table
afterwards, and whether a provider-side creation was requested. -/
structure CreateOutcome where
  resp : CreateResp
  store : Store
  providerCalled : Bool
deriving DecidableEq, Repr

/-- The POST /api/create handler.  If no entry exists for the title it
sends CreateMeetingCommand to the provider (outcome given by the
chimeSend oracle) and stores the meeting with an empty attendees
object; otherwise it answers from the store without any provider call.
A provider failure is caught and returned as status 500 with the error
message. -/
def createMeeting (store : Store) (title token : String)
    (chimeSend : CreateMeetingRequest → Except String ProviderMeeting) :
    CreateOutcome :=
  match lookupKey store title with
  | some md => ⟨.meetingOk md.meeting, store, false⟩
  | none =>
    match chimeSend ⟨token, "us-east-1", title⟩ with
    | .ok m => ⟨.meetingOk m, setKey store title ⟨m, [], none, none⟩, true⟩
    | .error e => ⟨.httpError 500 e, store, true⟩

/-- Response of POST /api/join: 200 with JoinInfo (meeting plus the
freshly minted attendee) and the current roster, or an error status
with a message. -/
inductive JoinResp
  | joinOk (meeting : ProviderMeeting) (attendee : Attendee) (roster : Roster)
  | httpError (status : Nat) (error : String)
deriving DecidableEq, Repr

/-- Result of a join call: the HTTP response and the meetings table
afterwards. -/
structure JoinOutcome where
  resp : JoinResp
  store : Store
deriving DecidableEq, Repr

/-- The POST /api/join handler.  Creates the meeting when the title is
absent (same CreateMeetingCommand as the create handler), then always
sends CreateAttendeeCommand for a new attendee (oracle chimeAttendee,
taking the MeetingId and the fresh ExternalUserId uuid), records the
display name under the minted attendeeId in the roster, and returns
JoinInfo with the current roster.  Any provider failure is caught and
returned as status 500.  The defensive re-initialisation of a missing
attendees object in the source is the identity here because the model
always stores a roster list. -/
def joinMeeting (store : Store) (title name token attendeeToken : String)
    (chimeSend : CreateMeetingRequest → Except String ProviderMeeting)
    (chimeAttendee : String → String → Except String Attendee) :
    JoinOutcome :=
  let created : Except String (ProviderMeeting × Store) :=
    match lookupKey store title with
    | none =>
      match chimeSend ⟨token, "us-east-1", title⟩ with
      | .ok m => .ok (m, setKey store title ⟨m, [], none, none⟩)
      | .error e => .error e
    | some md => .ok (md.meeting, store)
  match created with
  | .error e => ⟨.httpError 500 e, store⟩
  | .ok (meeting, store₁) =>
    match chimeAttendee meeting.meetingId attendeeToken with
    | .error e => ⟨.httpError 500 e, store₁⟩
    | .ok att =>
      match lookupKey store₁ title with
      | none =>
        -- unreachable: the entry for the title was just ensured above;
        -- in the source a missing entry would raise inside the try and
        -- be answered with status 500
        ⟨.httpError 500 "TypeError", store₁⟩
      | some md =>
        let md₂ := { md with attendees := setKey md.attendees att.attendeeId name }
        ⟨.joinOk meeting att md₂.attendees, setKey store₁ title md₂⟩

/-- Response of GET /api/roster/:title. -/
inductive RosterResp
  | rosterOk (roster : Roster)
  | httpError (status : Nat) (error : String)
deriving DecidableEq, Repr

/-- The GET /api/roster/:title handler: 404 for an unknown title,
otherwise the stored attendees object. -/
def getRoster (store : Store) (title : String) : RosterResp :=
  match lookupKey store title with
  | none => .httpError 404 "Meeting not found"
  | some md => .rosterOk md.attendees

/-- The CompositedVideo artifact settings used in grid mode. -/
structure CompositedVideoCfg where
  state : String
  layout : String
  resolution : String
  contentShareLayout : String
deriving DecidableEq, Repr

/-- State and optional MuxType of the Video or Content artifact. -/
structure StreamCfg where
  state : String
  muxType : Option String
deriving DecidableEq, Repr

/-- The ArtifactsConfiguration the server builds: audio MuxType, the
video and content stream settings, and the optional CompositedVideo
block. -/
structure ArtifactsConfig where
  audioMuxType : String
  video : StreamCfg
  content : StreamCfg
  compositedVideo : Option CompositedVideoCfg
deriving DecidableEq, Repr

/-- The artifact configuration chosen by the record-start handler:
exactly the string grid selects the composited grid view; every other
mode value (including an absent mode) falls into the raw branch with
individually muxed audio, video and content streams. -/
def artifactsFor (mode : Option String) : ArtifactsConfig :=
  if mode = some "grid" then
    { audioMuxType := "AudioOnly"
      video := ⟨"Disabled", none⟩
      content := ⟨"Disabled", none⟩
      compositedVideo := some ⟨"Enabled", "GridView", "HD", "PresenterOnly"⟩ }
  else
    { audioMuxType := "AudioOnly"
      video := ⟨"Enabled", some "VideoOnly"⟩
      content := ⟨"Enabled", some "ContentOnly"⟩
      compositedVideo := none }

/-- JavaScript template interpolation of a possibly absent string:
an undefined value prints as the string undefined. -/
def jsTemplate : Option String → String
  | some s => s
  | none => "undefined"

/-- The account id used in the pipeline source ARN: the
AWS_ACCOUNT_ID environment value when truthy, otherwise the fifth
colon-separated component of the meeting ARN (undefined when the ARN
is too short, as in JavaScript). -/
def accountIdOf (env : Option String) (md : MeetingData) : String :=
  if jsTruthy env then jsTemplate env
  else (md.meeting.meetingArn.splitOn ":").getD 4 "undefined"

/-- The request the server builds for CreateMediaCapturePipelineCommand. -/
structure CreatePipelineRequest where
  sourceType : String
  sourceArn : String
  sinkType : String
  sinkArn : String
  artifacts : ArtifactsConfig
deriving DecidableEq, Repr

/-- The pipeline creation request for a given meeting and mode. -/
def pipelineRequest (env : Option String) (md : MeetingData)
    (mode : Option String) : CreatePipelineRequest :=
  { sourceType := "ChimeSdkMeeting"
    sourceArn :=
      "arn:aws:chime::" ++ accountIdOf env md ++ ":meeting:" ++ md.meeting.meetingId
    sinkType := "S3Bucket"
    sinkArn := "arn:aws:s3:::meet-recordings-rm"
    artifacts := artifactsFor mode }

/-- Response of POST /api/record/start: 200 with the confirmation
message and the pipeline id, or an error status with a message. -/
inductive StartResp
  | startOk (message pipelineId : String)
  | httpError (status : Nat) (error : String)
deriving DecidableEq, Repr

/-- Result of a record-start call: the HTTP response, the meetings
table afterwards, and whether a pipeline creation was requested from
the provider. -/
structure StartOutcome where
  resp : StartResp
  store : Store
  providerCalled : Bool
deriving DecidableEq, Repr

/-- The POST /api/record/start handler: 404 when the title is unknown,
400 when the stored pipelineId is truthy (already recording), otherwise
it sends the pipeline creation request (oracle mediaSend returning the
MediaPipelineId); on success it records pipelineId and recordMode and
answers with the message interpolating the supplied mode, on failure
it answers 500 with the provider error and changes nothing. -/
def recordStart (store : Store) (title : String) (mode env : Option String)
    (mediaSend : CreatePipelineRequest → Except String String) : StartOutcome :=
  match lookupKey store title with
  | none => ⟨.httpError 404 "Meeting not found", store, false⟩
  | some md =>
    if jsTruthy md.pipelineId then ⟨.httpError 400 "Already recording", store, false⟩
    else
      match mediaSend (pipelineRequest env md mode) with
      | .ok pid =>
        ⟨.startOk ("Recording started (" ++ jsTemplate mode ++ ")") pid,
          setKey store title { md with pipelineId := some pid, recordMode := mode },
          true⟩
      | .error e => ⟨.httpError 500 e, store, true⟩

/-- Response of POST /api/record/stop. -/
inductive StopResp
  | stopOk (message : String)
  | httpError (status : Nat) (error : String)
deriving DecidableEq, Repr

/-- Result of a record-stop call: the HTTP response, the meetings
table afterwards, and whether a pipeline deletion was requested. -/
structure StopOutcome where
  resp : StopResp
  store : Store
  providerCalled : Bool
deriving DecidableEq, Repr

/-- The POST /api/record/stop handler: 400 when the title is unknown
or the stored pipelineId is falsy (absent, null or empty — the source
guard is the falsiness of meetingData or of its pipelineId), otherwise
it sends DeleteMediaCapturePipelineCommand for the stored pipeline id
(oracle mediaDelete); on success it sets pipelineId to null and
answers 200, on failure it answers 500 with the provider error and
changes nothing (recordMode is never cleared). -/
def recordStop (store : Store) (title : String)
    (mediaDelete : String → Except String Unit) : StopOutcome :=
  match lookupKey store title with
  | none => ⟨.httpError 400 "Not recording", store, false⟩
  | some md =>
    match md.pipelineId with
    | none => ⟨.httpError 400 "Not recording", store, false⟩
    | some pid =>
      if pid.isEmpty then ⟨.httpError 400 "Not recording", store, false⟩
      else
        match mediaDelete pid with
        | .ok _ =>
          ⟨.stopOk "Recording stopped", setKey store title { md with pipelineId := none }, true⟩
        | .error e => ⟨.httpError 500 e, store, true⟩

/-- A toast notification: the message text and its kind (join or
leave). -/
structure Notif where
  message : String
  kind : String
deriving DecidableEq, Repr

/-- The frontend attendeeIdPresenceHandler (App.jsx), as a function of
the locally held roster snapshot, the local client's own attendeeId,
the event fields, and the outcome of the roster fetch it performs on a
join event (some r models a response carrying a roster field, none a
failed fetch or a response without one).  Returns the notifications
shown and the local roster snapshot afterwards.  On present the
handler names the event's attendeeId from the fetched roster (falling
back to Someone), notifies unless it is the client's own id, and
replaces the snapshot with the fetched roster; on absence it names the
attendeeId from the local snapshot, always notifies, and deletes the
id from the snapshot. -/
def attendeeIdPresenceHandler (localRoster : Roster) (myAttendeeId attendeeId : String)
    (present : Bool) (fetchRoster : Option Roster) : List Notif × Roster :=
  if present then
    match fetchRoster with
    | some r =>
      let attendeeName := jsOr (lookupKey r attendeeId) "Someone"
      (if attendeeId ≠ myAttendeeId then [⟨attendeeName ++ " joined", "join"⟩] else [], r)
    | none => ([], localRoster)
  else
    let leavingName := jsOr (lookupKey localRoster attendeeId) "Someone"
    ([⟨leavingName ++ " left", "leave"⟩], eraseKey localRoster attendeeId)

/-- Modelled from the spec: the join fan-out the specification
describes for a presence event with present true — one Joined(name)
notification for every attendeeId newly appearing in the fetched
snapshot relative to the locally held one, excluding the local
client's own attendeeId.  Stated here only to be compared with the
behaviour of attendeeIdPresenceHandler. -/
def specJoinFanout (localRoster fetched : Roster) (myAttendeeId : String) : List Notif :=
  (fetched.filter
      (fun p => (lookupKey localRoster p.1).isNone && p.1 ≠ myAttendeeId)).map
    (fun p => ⟨p.2 ++ " joined", "join"⟩)

/-- An entry of the frontend notification queue: the identifier taken
from Date.now() at push time, the message and the kind. -/
structure NotifEntry where
  id : Nat
  message : String
  kind : String
deriving DecidableEq, Repr

/-- The enqueue step of showNotification (App.jsx): appends an entry
whose id is the clock value at push time. -/
def pushNotification (queue : List NotifEntry) (now : Nat)
    (message kind : String) : List NotifEntry :=
  queue ++ [⟨now, message, kind⟩]

/-- The timer body of showNotification: after the fixed delay the
queue is filtered, keeping the entries whose id differs from the
pushed id. -/
def expireNotification (queue : List NotifEntry) (id : Nat) : List NotifEntry :=
  queue.filter (fun n => n.id ≠ id)

deriving instance DecidableEq for Except

/-- One recording request for a fixed title, bundled with the provider
outcome for the single provider call that request can make: a start
carries the mode and the CreateMediaCapturePipeline outcome, a stop
carries the DeleteMediaCapturePipeline outcome. -/
inductive RecOp
  | rstart (mode : Option String) (resp : Except String String)
  | rstop (resp : Except String Unit)
deriving DecidableEq, Repr

/-- Whether an Except outcome is a success. -/
def exceptOk : Except ε α → Bool
  | .ok _ => true
  | .error _ => false

/-- The store after serving one recording request. -/
def recStep (store : Store) (title : String) (env : Option String) :
    RecOp → Store
  | .rstart mode r => (recordStart store title mode env (fun _ => r)).store
  | .rstop r => (recordStop store title (fun _ => r)).store

/-- The store after serving a sequence of recording requests for one
title, in order (the sequential request model). -/
def runRec (store : Store) (title : String) (env : Option String) :
    List RecOp → Store
  | [] => store
  | op :: ops => runRec (recStep store title env op) title env ops

/-- Modelled from the spec: whether a recording is active after a
request trace, given whether one was active before it — a start
succeeds exactly when issued while inactive with a provider success
and makes the recording active, a stop succeeds exactly when issued
while active with a provider success and makes it inactive; failed or
conflicting requests change nothing. -/
def activeAfter (b : Bool) : List RecOp → Bool
  | [] => b
  | .rstart _ r :: ops => activeAfter (b || exceptOk r) ops
  | .rstop r :: ops => activeAfter (b && !exceptOk r) ops

/-- Every pipeline id minted by a provider success in the trace is a
nonempty string (AWS pipeline ids are nonempty; an empty id would be
falsy in the JavaScript truthiness tests of the server). -/
def pidsOk : List RecOp → Bool
  | [] => true
  | .rstart _ (.ok pid) :: ops => !pid.isEmpty && pidsOk ops
  | _ :: ops => pidsOk ops

/-- Progress of one create request in the interleaving model of the
create handler: ready (about to run the code before the await),
awaiting (the provider call was issued and will return the recorded
meeting), finished (the response was sent with the recorded meeting).
The meeting carried by ready is the one the provider would mint for
this request if it is called. -/
inductive ReqPhase
  | ready (mintable : ProviderMeeting)
  | awaiting (minted : ProviderMeeting)
  | finished (returned : ProviderMeeting)
deriving DecidableEq, Repr

/-- Two concurrent create requests for the same title: the shared
meetings table, the phase of each request, and how many provider-side
meeting creations were issued so far. -/
structure ConcState where
  store : Store
  phase1 : ReqPhase
  phase2 : ReqPhase
  providerCreates : Nat
deriving DecidableEq, Repr

/-- One scheduler step of a single create request: a ready request
runs the synchronous segment up to the await — it answers from the
store when the title exists, otherwise issues the provider creation
and suspends; an awaiting request runs the continuation after the
await — it stores the minted meeting and answers with it.  Returns
the new phase, the new store, and the number of provider creations
issued (0 or 1). -/
def phaseStep (store : Store) (title : String) :
    ReqPhase → ReqPhase × Store × Nat
  | .ready m =>
    match lookupKey store title with
    | some md => (.finished md.meeting, store, 0)
    | none => (.awaiting m, store, 1)
  | .awaiting m => (.finished m, setKey store title ⟨m, [], none, none⟩, 0)
  | .finished m => (.finished m, store, 0)

/-- Advance the request selected by the scheduler (true selects the
first request). -/
def concStep (s : ConcState) (title : String) (first : Bool) : ConcState :=
  if first then
    match phaseStep s.store title s.phase1 with
    | (p, st, n) => ⟨st, p, s.phase2, s.providerCreates + n⟩
  else
    match phaseStep s.store title s.phase2 with
    | (p, st, n) => ⟨st, s.phase1, p, s.providerCreates + n⟩

/-- Run a schedule (a list of scheduler choices) over two concurrent
create requests. -/
def runSchedule (s : ConcState) (title : String) : List Bool → ConcState
  | [] => s
  | c :: rest => runSchedule (concStep s title c) title rest

/-- A sequence of join requests for one title: each element carries
the display name and the attendee the provider mints for that call;
the meeting the provider would mint if the title is absent is m, and
all provider calls succeed.  Returns the responses in order and the
final meetings table. -/
def joinAll (store : Store) (title : String) (m : ProviderMeeting) :
    List (String × Attendee) → List JoinResp × Store
  | [] => ([], store)
  | (name, att) :: rest =>
    let out := joinMeeting store title name "token" "userToken"
      (fun _ => .ok m) (fun _ _ => .ok att)
    let next := joinAll out.store title m rest
    (out.resp :: next.1, next.2)

/-- Concrete sample data used by the witnesses below. -/
def sampleMeeting : ProviderMeeting :=
  ⟨"meeting-1", "ROOM1", "us-east-1",
    "arn:aws:chime:us-east-1:123456789012:meeting/meeting-1"⟩

/-- A second provider meeting for the same title, as a concurrent
second creation would mint. -/
def sampleMeetingB : ProviderMeeting :=
  ⟨"meeting-2", "ROOM1", "us-east-1",
    "arn:aws:chime:us-east-1:123456789012:meeting/meeting-2"⟩

/-- A store holding one meeting with no active recording. -/
def sampleIdleStore : Store :=
  [("ROOM1", ⟨sampleMeeting, [("att-1", "Alice")], none, none⟩)]

/-- A store holding one meeting with an active recording. -/
def sampleRecordingStore : Store :=
  [("ROOM1", ⟨sampleMeeting, [("att-1", "Alice")], some "pipe-1", some "raw"⟩)]

/-! Lemmas about the JavaScript object operations. -/

theorem lookupKey_setKey_self (l : List (String × α)) (k : String) (v : α) :
    lookupKey (setKey l k v) k = some v := by
  induction l with
  | nil => simp [setKey, lookupKey]
  | cons p rest ih =>
    by_cases h : p.1 = k
    · simp [setKey, h, lookupKey]
    · simp [setKey, h, lookupKey, ih]

theorem setKey_of_lookupKey_none (l : List (String × α)) (k : String) (v : α)
    (h : lookupKey l k = none) : setKey l k v = l ++ [(k, v)] := by
  induction l with
  | nil => simp [setKey]
  | cons p rest ih =>
    by_cases hp : p.1 = k
    · simp [lookupKey, hp] at h
    · simp [lookupKey, hp] at h
      simp [setKey, hp, ih h]

theorem lookupKey_append (l₁ l₂ : List (String × α)) (k : String) :
    lookupKey (l₁ ++ l₂) k =
      match lookupKey l₁ k with
      | some v => some v
      | none => lookupKey l₂ k := by
  induction l₁ with
  | nil => simp [lookupKey]
  | cons p rest ih =>
    by_cases hp : p.1 = k
    · simp [lookupKey, hp]
    · simp [lookupKey, hp, ih]

theorem lookupKey_eraseKey_self (l : List (String × α)) (k : String) :
    lookupKey (eraseKey l k) k = none := by
  induction l with
  | nil => simp [eraseKey, lookupKey]
  | cons p rest ih =>
    by_cases hp : p.1 = k
    · simpa [eraseKey, hp] using ih
    · simpa [eraseKey, lookupKey, hp] using ih

theorem eraseKey_eraseKey (l : List (String × α)) (k : String) :
    eraseKey (eraseKey l k) k = eraseKey l k := by
  simp [eraseKey, List.filter_filter]

/-- C1: meeting creation is idempotent per title — when an entry for
the title already exists the create handler performs no provider-side
creation and returns the stored meeting unchanged, and whenever a
create call succeeds, a second create call for the same title (with
any provider behaviour and any fresh token) returns the very same
meeting, hence the same externalMeetingId and MeetingId both times. -/
theorem C1_create_idempotent_per_title (store : Store) (title t₁ t₂ : String)
    (chime chime' : CreateMeetingRequest → Except String ProviderMeeting)
    (m₁ : ProviderMeeting)
    (h : (createMeeting store title t₁ chime).resp = CreateResp.meetingOk m₁) :
    (∀ md, lookupKey store title = some md →
      (createMeeting store title t₁ chime).providerCalled = false ∧
      (createMeeting store title t₁ chime).resp = CreateResp.meetingOk md.meeting ∧
      (createMeeting store title t₁ chime).store = store) ∧
    (createMeeting (createMeeting store title t₁ chime).store title t₂ chime').resp
      = CreateResp.meetingOk m₁ ∧
    (∀ m₂, (createMeeting (createMeeting store title t₁ chime).store title t₂ chime').resp
      = CreateResp.meetingOk m₂ → m₂.externalMeetingId = m₁.externalMeetingId) := by
  have hsec : (createMeeting (createMeeting store title t₁ chime).store title t₂ chime').resp
      = CreateResp.meetingOk m₁ := by
    cases hl : lookupKey store title with
    | some md =>
      have h₁ : createMeeting store title t₁ chime = ⟨.meetingOk md.meeting, store, false⟩ := by
        simp [createMeeting, hl]
      rw [h₁] at h ⊢
      simp only [CreateResp.meetingOk.injEq] at h
      simp [createMeeting, hl, h]
    | none =>
      cases hc : chime ⟨t₁, "us-east-1", title⟩ with
      | ok m =>
        have h₁ : createMeeting store title t₁ chime
            = ⟨.meetingOk m, setKey store title ⟨m, [], none, none⟩, true⟩ := by
          simp [createMeeting, hl, hc]
        rw [h₁] at h ⊢
        simp only [CreateResp.meetingOk.injEq] at h
        subst h
        simp [createMeeting, lookupKey_setKey_self]
      | error e =>
        have h₁ : createMeeting store title t₁ chime = ⟨.httpError 500 e, store, true⟩ := by
          simp [createMeeting, hl, hc]
        rw [h₁] at h
        simp at h
  refine ⟨?_, hsec, ?_⟩
  · intro md hmd
    simp [createMeeting, hmd]
  · intro m₂ h₂
    rw [hsec] at h₂
    injection h₂ with hm
    rw [← hm]

/-- Witness for C1: a first create on an empty store mints and stores
the sample meeting, and the second create returns the same meeting
even though its provider oracle would mint a different one. -/
theorem C1_create_idempotent_per_title_witness :
    (createMeeting (createMeeting [] "ROOM1" "tk1" (fun _ => Except.ok sampleMeeting)).store
        "ROOM1" "tk2" (fun _ => Except.ok sampleMeetingB)).resp
      = CreateResp.meetingOk sampleMeeting :=
  (C1_create_idempotent_per_title [] "ROOM1" "tk1" "tk2"
    (fun _ => Except.ok sampleMeeting) (fun _ => Except.ok sampleMeetingB)
    sampleMeeting rfl).2.1

/-- C4: contract of record start — 404 for an unknown title, 400 when
a recording is already active (truthy pipelineId), otherwise the
pipeline request is sent; on provider success pipelineId and mode are
recorded on the meeting and returned together with the confirmation
message, and on provider failure the meeting entry is left unchanged
(recording still idle, no pipelineId recorded) and a 500 carrying the
provider message is returned. -/
theorem C4_record_start_contract (store : Store) (title : String)
    (mode env : Option String)
    (send : CreatePipelineRequest → Except String String) :
    (lookupKey store title = none →
      recordStart store title mode env send
        = ⟨.httpError 404 "Meeting not found", store, false⟩) ∧
    (∀ md, lookupKey store title = some md → jsTruthy md.pipelineId = true →
      recordStart store title mode env send
        = ⟨.httpError 400 "Already recording", store, false⟩) ∧
    (∀ md pid, lookupKey store title = some md → jsTruthy md.pipelineId = false →
      send (pipelineRequest env md mode) = Except.ok pid →
      recordStart store title mode env send
        = ⟨.startOk ("Recording started (" ++ jsTemplate mode ++ ")") pid,
            setKey store title { md with pipelineId := some pid, recordMode := mode },
            true⟩) ∧
    (∀ md e, lookupKey store title = some md → jsTruthy md.pipelineId = false →
      send (pipelineRequest env md mode) = Except.error e →
      recordStart store title mode env send = ⟨.httpError 500 e, store, true⟩) := by
  refine ⟨?_, ?_, ?_, ?_⟩
  · intro h
    simp [recordStart, h]
  · intro md h hb
    simp [recordStart, h, hb]
  · intro md pid h hb hsend
    simp [recordStart, h, hb, hsend]
  · intro md e h hb hsend
    simp [recordStart, h, hb, hsend]

/-- Witness for C4: on the idle sample store a start in grid mode with
a succeeding provider records the minted pipeline id and answers with
the grid confirmation message. -/
theorem C4_record_start_contract_witness :
    recordStart sampleIdleStore "ROOM1" (some "grid") none (fun _ => Except.ok "pipe-2")
      = ⟨.startOk "Recording started (grid)" "pipe-2",
          [("ROOM1", ⟨sampleMeeting, [("att-1", "Alice")], some "pipe-2", some "grid"⟩)],
          true⟩ := by
  have h := (C4_record_start_contract sampleIdleStore "ROOM1" (some "grid") none
      (fun _ => Except.ok "pipe-2")).2.2.1
      ⟨sampleMeeting, [("att-1", "Alice")], none, none⟩ "pipe-2" (by decide) (by decide) rfl
  rw [h]
  decide

/-- C5: error atomicity of record stop — when no recording is active
(unknown title, or absent, null or empty pipelineId) the handler
answers 400 Conflict without touching the store and without any
provider call, when the provider deletion fails it answers 500 with
the provider message and the store (pipelineId included) is unchanged,
and only a successful provider deletion clears pipelineId. -/
theorem C5_record_stop_atomicity (store : Store) (title : String)
    (del : String → Except String Unit) :
    (lookupKey store title = none →
      recordStop store title del = ⟨.httpError 400 "Not recording", store, false⟩) ∧
    (∀ md, lookupKey store title = some md → jsTruthy md.pipelineId = false →
      recordStop store title del = ⟨.httpError 400 "Not recording", store, false⟩) ∧
    (∀ md pid e, lookupKey store title = some md → md.pipelineId = some pid →
      pid.isEmpty = false → del pid = Except.error e →
      recordStop store title del = ⟨.httpError 500 e, store, true⟩) ∧
    (∀ md pid, lookupKey store title = some md → md.pipelineId = some pid →
      pid.isEmpty = false → del pid = Except.ok () →
      recordStop store title del
        = ⟨.stopOk "Recording stopped",
            setKey store title { md with pipelineId := none }, true⟩) := by
  refine ⟨?_, ?_, ?_, ?_⟩
  · intro h
    simp [recordStop, h]
  · intro md h hb
    cases hpid : md.pipelineId with
    | none => simp [recordStop, h, hpid]
    | some pid =>
      have hpe : pid.isEmpty = true := by
        simpa [jsTruthy, hpid] using hb
      simp [recordStop, h, hpid, hpe]
  · intro md pid e h hpid hpe hdel
    simp [recordStop, h, hpid, hpe, hdel]
  · intro md pid h hpid hpe hdel
    simp [recordStop, h, hpid, hpe, hdel]

/-- Witness for C5: stopping the recording sample store with a failing
provider deletion answers 500 and leaves the store (its pipelineId
included) unchanged. -/
theorem C5_record_stop_atomicity_witness :
    recordStop sampleRecordingStore "ROOM1" (fun _ => Except.error "boom")
      = ⟨.httpError 500 "boom", sampleRecordingStore, true⟩ :=
  (C5_record_stop_atomicity sampleRecordingStore "ROOM1"
      (fun _ => Except.error "boom")).2.2.1
    ⟨sampleMeeting, [("att-1", "Alice")], some "pipe-1", some "raw"⟩ "pipe-1" "boom"
    (by decide) rfl (by decide) rfl

/-- C10: for a record-start on an existing non-recording meeting, any
mode other than the exact string grid — an absent mode or a
differently cased value included — selects the raw artifact
configuration (separate audio, individual video streams and content
streams all enabled), the call succeeds when the provider does, the
supplied mode value is echoed verbatim in the confirmation message,
and no unrecognized mode is rejected. -/
theorem C10_non_grid_mode_falls_back_to_raw (store : Store) (title : String)
    (mode env : Option String)
    (send : CreatePipelineRequest → Except String String)
    (md : MeetingData) (pid : String)
    (h : lookupKey store title = some md)
    (hb : jsTruthy md.pipelineId = false)
    (hmode : mode ≠ some "grid")
    (hsend : send (pipelineRequest env md mode) = Except.ok pid) :
    artifactsFor mode
      = ⟨"AudioOnly", ⟨"Enabled", some "VideoOnly"⟩,
          ⟨"Enabled", some "ContentOnly"⟩, none⟩ ∧
    recordStart store title mode env send
      = ⟨.startOk ("Recording started (" ++ jsTemplate mode ++ ")") pid,
          setKey store title { md with pipelineId := some pid, recordMode := mode },
          true⟩ ∧
    (∀ s, mode = some s →
      (recordStart store title mode env send).resp
        = .startOk ("Recording started (" ++ s ++ ")") pid) := by
  have hstart : recordStart store title mode env send
      = ⟨.startOk ("Recording started (" ++ jsTemplate mode ++ ")") pid,
          setKey store title { md with pipelineId := some pid, recordMode := mode },
          true⟩ := by
    simp [recordStart, h, hb, hsend]
  refine ⟨?_, hstart, ?_⟩
  · simp [artifactsFor, hmode]
  · intro s hs
    rw [hstart, hs]
    rfl

/-- Witness for C10: the unrecognized mode Grid (capitalised) is
accepted on the idle sample store, the raw configuration is applied,
and the message echoes Grid verbatim. -/
theorem C10_non_grid_mode_falls_back_to_raw_witness :
    artifactsFor (some "Grid")
      = ⟨"AudioOnly", ⟨"Enabled", some "VideoOnly"⟩,
          ⟨"Enabled", some "ContentOnly"⟩, none⟩ ∧
    (recordStart sampleIdleStore "ROOM1" (some "Grid") none
        (fun _ => Except.ok "pipe-3")).resp
      = .startOk "Recording started (Grid)" "pipe-3" := by
  have h := C10_non_grid_mode_falls_back_to_raw sampleIdleStore "ROOM1" (some "Grid") none
    (fun _ => Except.ok "pipe-3") ⟨sampleMeeting, [("att-1", "Alice")], none, none⟩
    "pipe-3" (by decide) (by decide) (by decide) rfl
  exact ⟨h.1, h.2.2 "Grid" rfl⟩

theorem runRec_preserves (title : String) (env : Option String) :
    ∀ (ops : List RecOp) (store : Store) (md : MeetingData),
      lookupKey store title = some md → pidsOk ops = true →
      ∃ md', lookupKey (runRec store title env ops) title = some md' ∧
        jsTruthy md'.pipelineId = activeAfter (jsTruthy md.pipelineId) ops ∧
        md'.meeting = md.meeting := by
  intro ops
  induction ops with
  | nil =>
    intro store md h _
    exact ⟨md, h, rfl, rfl⟩
  | cons op ops ih =>
    intro store md h hp
    cases op with
    | rstart mode r =>
      cases hb : jsTruthy md.pipelineId with
      | true =>
        have hp' : pidsOk ops = true := by
          cases r with
          | ok pid => simp [pidsOk] at hp; exact hp.2
          | error e => simpa [pidsOk] using hp
        have hstep : recStep store title env (.rstart mode r) = store := by
          simp [recStep, recordStart, h, hb]
        obtain ⟨md', h1, h2, h3⟩ := ih store md h hp'
        refine ⟨md', ?_, ?_, h3⟩
        · simpa only [runRec, hstep] using h1
        · simpa [activeAfter, hb] using h2
      | false =>
        cases r with
        | ok pid =>
          have hp2 := hp
          simp [pidsOk] at hp2
          obtain ⟨hpe, hp'⟩ := hp2
          have hstep : recStep store title env (.rstart mode (.ok pid))
              = setKey store title { md with pipelineId := some pid, recordMode := mode } := by
            simp [recStep, recordStart, h, hb]
          obtain ⟨md', h1, h2, h3⟩ :=
            ih _ _ (lookupKey_setKey_self store title
              { md with pipelineId := some pid, recordMode := mode }) hp'
          refine ⟨md', ?_, ?_, ?_⟩
          · simpa only [runRec, hstep] using h1
          · simp [jsTruthy, hpe] at h2
            simpa [activeAfter, hb, exceptOk] using h2
          · simpa using h3
        | error e =>
          have hp' : pidsOk ops = true := by simpa [pidsOk] using hp
          have hstep : recStep store title env (.rstart mode (.error e)) = store := by
            simp [recStep, recordStart, h, hb]
          obtain ⟨md', h1, h2, h3⟩ := ih store md h hp'
          refine ⟨md', ?_, ?_, h3⟩
          · simpa only [runRec, hstep] using h1
          · simpa [activeAfter, hb, exceptOk] using h2
    | rstop r =>
      have hp' : pidsOk ops = true := by simpa [pidsOk] using hp
      cases hb : jsTruthy md.pipelineId with
      | false =>
        have hstep : recStep store title env (.rstop r) = store := by
          cases hpid : md.pipelineId with
          | none => simp [recStep, recordStop, h, hpid]
          | some pid =>
            have hpe : pid.isEmpty = true := by simpa [jsTruthy, hpid] using hb
            simp [recStep, recordStop, h, hpid, hpe]
        obtain ⟨md', h1, h2, h3⟩ := ih store md h hp'
        refine ⟨md', ?_, ?_, h3⟩
        · simpa only [runRec, hstep] using h1
        · simpa [activeAfter, hb] using h2
      | true =>
        cases hpid : md.pipelineId with
        | none => simp [jsTruthy, hpid] at hb
        | some pid =>
          have hpe : pid.isEmpty = false := by simpa [jsTruthy, hpid] using hb
          cases r with
          | ok u =>
            have hstep : recStep store title env (.rstop (.ok u))
                = setKey store title { md with pipelineId := none } := by
              simp [recStep, recordStop, h, hpid, hpe]
            obtain ⟨md', h1, h2, h3⟩ :=
              ih _ _ (lookupKey_setKey_self store title { md with pipelineId := none }) hp'
            refine ⟨md', ?_, ?_, ?_⟩
            · simpa only [runRec, hstep] using h1
            · simp [jsTruthy] at h2
              simpa [activeAfter, hb, exceptOk] using h2
            · simpa using h3
          | error e =>
            have hstep : recStep store title env (.rstop (.error e)) = store := by
              simp [recStep, recordStop, h, hpid, hpe]
            obtain ⟨md', h1, h2, h3⟩ := ih store md h hp'
            refine ⟨md', ?_, ?_, h3⟩
            · simpa only [runRec, hstep] using h1
            · simpa [activeAfter, hb, exceptOk] using h2

/-- C2: mutual exclusion of the recording state machine in the
sequential request model — over any request trace for an existing
meeting (with provider-minted pipeline ids nonempty), the stored
pipelineId is truthy exactly when some start succeeded with no
successful stop since; a start issued while a recording is active
answers 400 Conflict without touching the store and without creating
a pipeline; and a stop succeeds exactly when a recording is active
and the provider deletion of the stored pipeline succeeds. -/
theorem C2_recording_mutual_exclusion (store : Store) (title : String)
    (env : Option String) (ops : List RecOp) (md : MeetingData)
    (h : lookupKey store title = some md) (hp : pidsOk ops = true) :
    (∃ md', lookupKey (runRec store title env ops) title = some md' ∧
      jsTruthy md'.pipelineId = activeAfter (jsTruthy md.pipelineId) ops) ∧
    (jsTruthy md.pipelineId = true →
      ∀ mode send, recordStart store title mode env send
        = ⟨.httpError 400 "Already recording", store, false⟩) ∧
    (∀ del, (recordStop store title del).resp = .stopOk "Recording stopped" ↔
      (jsTruthy md.pipelineId = true ∧
        ∀ pid, md.pipelineId = some pid → exceptOk (del pid) = true)) := by
  refine ⟨?_, ?_, ?_⟩
  · obtain ⟨md', h1, h2, _⟩ := runRec_preserves title env ops store md h hp
    exact ⟨md', h1, h2⟩
  · intro hb mode send
    simp [recordStart, h, hb]
  · intro del
    cases hpid : md.pipelineId with
    | none =>
      simp [recordStop, h, hpid, jsTruthy]
    | some pid =>
      cases hpe : pid.isEmpty with
      | true =>
        simp [recordStop, h, hpid, hpe, jsTruthy]
      | false =>
        cases hdel : del pid with
        | ok u =>
          simp [recordStop, h, hpid, hpe, hdel, jsTruthy, exceptOk]
        | error e =>
          simp [recordStop, h, hpid, hpe, hdel, jsTruthy, exceptOk]

/-- Witness for C2: on the idle sample store, the trace start, start,
stop (all provider calls succeeding) ends with no active recording,
matching the specified active tracker — the second start was refused
and the stop succeeded. -/
theorem C2_recording_mutual_exclusion_witness :
    ∃ md', lookupKey (runRec sampleIdleStore "ROOM1" none
        [RecOp.rstart (some "raw") (Except.ok "pipe-7"),
         RecOp.rstart (some "raw") (Except.ok "pipe-8"),
         RecOp.rstop (Except.ok ())]) "ROOM1" = some md' ∧
      jsTruthy md'.pipelineId
        = activeAfter
            (jsTruthy (⟨sampleMeeting, [("att-1", "Alice")], none, none⟩ : MeetingData).pipelineId)
            [RecOp.rstart (some "raw") (Except.ok "pipe-7"),
             RecOp.rstart (some "raw") (Except.ok "pipe-8"),
             RecOp.rstop (Except.ok ())] :=
  (C2_recording_mutual_exclusion sampleIdleStore "ROOM1" none
      [RecOp.rstart (some "raw") (Except.ok "pipe-7"),
       RecOp.rstart (some "raw") (Except.ok "pipe-8"),
       RecOp.rstop (Except.ok ())]
      ⟨sampleMeeting, [("att-1", "Alice")], none, none⟩ (by decide) (by decide)).1

theorem joinAll_existing (title : String) (m : ProviderMeeting) :
    ∀ (js : List (String × Attendee)) (store : Store) (md : MeetingData),
      lookupKey store title = some md →
      (∀ p ∈ js, lookupKey md.attendees p.2.attendeeId = none) →
      (js.map (fun p => p.2.attendeeId)).Nodup →
      List.Forall₂
        (fun (p : String × Attendee) r => ∃ ros, r = JoinResp.joinOk md.meeting p.2 ros)
        js (joinAll store title m js).1 ∧
      lookupKey (joinAll store title m js).2 title
        = some { md with
            attendees := md.attendees ++ js.map (fun p => (p.2.attendeeId, p.1)) } := by
  intro js
  induction js with
  | nil =>
    intro store md h _ _
    exact ⟨List.Forall₂.nil, by simpa [joinAll] using h⟩
  | cons p rest ih =>
    intro store md h hdisj hnd
    obtain ⟨name, att⟩ := p
    have hhead : lookupKey md.attendees att.attendeeId = none :=
      hdisj (name, att) (List.mem_cons_self _ _)
    have hout : joinMeeting store title name "token" "userToken"
        (fun _ => Except.ok m) (fun _ _ => Except.ok att)
        = ⟨.joinOk md.meeting att (md.attendees ++ [(att.attendeeId, name)]),
            setKey store title
              { md with attendees := md.attendees ++ [(att.attendeeId, name)] }⟩ := by
      simp [joinMeeting, h, setKey_of_lookupKey_none _ _ _ hhead]
    have hnd' : (rest.map (fun p => p.2.attendeeId)).Nodup :=
      (List.nodup_cons.mp (by simpa using hnd)).2
    have hfresh : att.attendeeId ∉ rest.map (fun p => p.2.attendeeId) :=
      (List.nodup_cons.mp (by simpa using hnd)).1
    have hdisj' : ∀ q ∈ rest,
        lookupKey (md.attendees ++ [(att.attendeeId, name)]) q.2.attendeeId = none := by
      intro q hq
      rw [lookupKey_append]
      have h₁ : lookupKey md.attendees q.2.attendeeId = none :=
        hdisj q (List.mem_cons_of_mem _ hq)
      have h₂ : att.attendeeId ≠ q.2.attendeeId := by
        intro hc
        exact hfresh (hc ▸ List.mem_map_of_mem (fun p => p.2.attendeeId) hq)
      simp [h₁, lookupKey, h₂]
    obtain ⟨hf, hl⟩ := ih (setKey store title
        { md with attendees := md.attendees ++ [(att.attendeeId, name)] })
      { md with attendees := md.attendees ++ [(att.attendeeId, name)] }
      (lookupKey_setKey_self ..) hdisj' hnd'
    constructor
    · refine List.Forall₂.cons ?_ ?_
      · exact ⟨md.attendees ++ [(att.attendeeId, name)], by simp [joinAll, hout]⟩
      · simpa [joinAll, hout] using hf
    · simpa [joinAll, hout, List.append_assoc] using hl

/-- C3: join is create-or-join and always mints a fresh attendee — a
sequence of joins for a title with no stored meeting all succeed (the
first join implicitly creating the meeting), each response carries the
attendee minted by the provider for that call even when display names
repeat, and afterwards the roster for the title holds exactly one
entry per join, keyed by the distinct minted attendeeIds with the
display name recorded under each (assuming the provider mints
distinct attendeeIds, all provider calls succeeding). -/
theorem C3_join_mints_and_records (store : Store) (title : String)
    (m : ProviderMeeting) (js : List (String × Attendee))
    (h0 : lookupKey store title = none)
    (hne : js ≠ [])
    (hnd : (js.map (fun p => p.2.attendeeId)).Nodup) :
    List.Forall₂ (fun (p : String × Attendee) r => ∃ ros, r = JoinResp.joinOk m p.2 ros)
      js (joinAll store title m js).1 ∧
    ∃ md, lookupKey (joinAll store title m js).2 title = some md ∧
      md.meeting = m ∧
      md.attendees = js.map (fun p => (p.2.attendeeId, p.1)) ∧
      md.attendees.length = js.length ∧
      (md.attendees.map Prod.fst).Nodup := by
  cases js with
  | nil => exact absurd rfl hne
  | cons p rest =>
    obtain ⟨name, att⟩ := p
    have hout : joinMeeting store title name "token" "userToken"
        (fun _ => Except.ok m) (fun _ _ => Except.ok att)
        = ⟨.joinOk m att [(att.attendeeId, name)],
            setKey (setKey store title ⟨m, [], none, none⟩) title
              ⟨m, [(att.attendeeId, name)], none, none⟩⟩ := by
      simp [joinMeeting, h0, lookupKey_setKey_self, setKey]
    have hnd' : (rest.map (fun p => p.2.attendeeId)).Nodup :=
      (List.nodup_cons.mp (by simpa using hnd)).2
    have hfresh : att.attendeeId ∉ rest.map (fun p => p.2.attendeeId) :=
      (List.nodup_cons.mp (by simpa using hnd)).1
    have hdisj' : ∀ q ∈ rest,
        lookupKey ((⟨m, [(att.attendeeId, name)], none, none⟩ : MeetingData).attendees)
          q.2.attendeeId = none := by
      intro q hq
      have h₂ : att.attendeeId ≠ q.2.attendeeId := by
        intro hc
        exact hfresh (hc ▸ List.mem_map_of_mem (fun p => p.2.attendeeId) hq)
      simp [lookupKey, h₂]
    obtain ⟨hf, hl⟩ := joinAll_existing title m rest
      (setKey (setKey store title ⟨m, [], none, none⟩) title
        ⟨m, [(att.attendeeId, name)], none, none⟩)
      ⟨m, [(att.attendeeId, name)], none, none⟩
      (lookupKey_setKey_self ..) hdisj' hnd'
    constructor
    · refine List.Forall₂.cons ?_ ?_
      · exact ⟨[(att.attendeeId, name)], by simp [joinAll, hout]⟩
      · simpa [joinAll, hout] using hf
    · refine ⟨⟨m, (att.attendeeId, name) :: rest.map (fun p => (p.2.attendeeId, p.1)),
        none, none⟩, ?_, rfl, by simp, by simp, ?_⟩
      · simpa [joinAll, hout] using hl
      · simp only [List.map_cons]
        rw [List.nodup_cons]
        constructor
        · simpa [List.map_map, Function.comp] using hfresh
        · simpa [List.map_map, Function.comp] using hnd'

/-- Witness for C3: two joins, Alice then Bob, on an empty store —
both succeed and the final roster holds exactly their two distinct
attendee ids with the names recorded. -/
theorem C3_join_mints_and_records_witness :
    ∃ md, lookupKey (joinAll [] "ROOM1" sampleMeeting
        [("Alice", ⟨"att-1", "user-1"⟩), ("Bob", ⟨"att-2", "user-2"⟩)]).2 "ROOM1"
        = some md ∧
      md.meeting = sampleMeeting ∧
      md.attendees = [("Alice", (⟨"att-1", "user-1"⟩ : Attendee)),
        ("Bob", ⟨"att-2", "user-2"⟩)].map (fun p => (p.2.attendeeId, p.1)) ∧
      md.attendees.length = [("Alice", (⟨"att-1", "user-1"⟩ : Attendee)),
        ("Bob", ⟨"att-2", "user-2"⟩)].length ∧
      (md.attendees.map Prod.fst).Nodup :=
  (C3_join_mints_and_records [] "ROOM1" sampleMeeting
    [("Alice", ⟨"att-1", "user-1"⟩), ("Bob", ⟨"att-2", "user-2"⟩)]
    rfl (by decide) (by decide)).2

/-- Counterexample to C6 as stated: with an empty local snapshot, a
join presence event for attendee A while the fetched snapshot holds
two new attendees A (Alice) and B (Bob), neither of them the local
client M, makes the handler emit Alice's notification only — the
fan-out the claim requires also contains Bob's, which is never
emitted; the handler notifies solely for the event's attendeeId and
performs no diff against the local snapshot. -/
theorem C6_join_fanout_counterexample :
    (attendeeIdPresenceHandler [] "M" "A" true
        (some [("A", "Alice"), ("B", "Bob")])).1
      = [⟨"Alice joined", "join"⟩] ∧
    Notif.mk "Bob joined" "join"
      ∈ specJoinFanout [] [("A", "Alice"), ("B", "Bob")] "M" ∧
    Notif.mk "Bob joined" "join"
      ∉ (attendeeIdPresenceHandler [] "M" "A" true
          (some [("A", "Alice"), ("B", "Bob")])).1 := by
  decide

/-- C6 amended: on a presence event with present true the handler
re-fetches the roster; when the fetch yields a snapshot it emits
exactly one Joined notification — for the event's attendeeId, named
from the fetched snapshot with Someone as fallback — unless that id
is the local client's own, regardless of whether the id is newly
appearing, with no notifications for any other newly appearing
attendee; it then replaces the local snapshot with the fetched one.
When the fetch yields no snapshot, nothing is emitted and the local
snapshot is kept. -/
theorem C6_join_event_notifies_event_attendee_only
    (localRoster r : Roster) (myAttendeeId attendeeId : String) :
    attendeeIdPresenceHandler localRoster myAttendeeId attendeeId true (some r)
      = ((if attendeeId ≠ myAttendeeId then
            [⟨jsOr (lookupKey r attendeeId) "Someone" ++ " joined", "join"⟩]
          else []), r) ∧
    attendeeIdPresenceHandler localRoster myAttendeeId attendeeId true none
      = ([], localRoster) :=
  ⟨rfl, rfl⟩

/-- C7: leave handling — a presence event with present false emits one
Left notification named from the locally held (possibly stale)
snapshot with Someone as fallback and removes the attendeeId from the
snapshot; processing the same leave event again for the now-absent
attendeeId emits Someone left and leaves the snapshot unchanged
(removal is idempotent, never an error). -/
theorem C7_leave_idempotent_removal (localRoster : Roster)
    (myAttendeeId attendeeId : String) (fetch₁ fetch₂ : Option Roster) :
    attendeeIdPresenceHandler localRoster myAttendeeId attendeeId false fetch₁
      = ([⟨jsOr (lookupKey localRoster attendeeId) "Someone" ++ " left", "leave"⟩],
          eraseKey localRoster attendeeId) ∧
    attendeeIdPresenceHandler (eraseKey localRoster attendeeId)
        myAttendeeId attendeeId false fetch₂
      = ([⟨"Someone left", "leave"⟩], eraseKey localRoster attendeeId) := by
  constructor
  · rfl
  · have h₁ : lookupKey (eraseKey localRoster attendeeId) attendeeId = none :=
      lookupKey_eraseKey_self ..
    simp [attendeeIdPresenceHandler, h₁, jsOr, eraseKey_eraseKey]

/-- Counterexample to C8 as stated: two notifications pushed at the
same clock value 5 carry the same identifier, so the identifiers of
the active notifications are not pairwise distinct, and the expiry of
the first entry (keyed by its identifier) removes both entries — not
the single pushed entry the claim requires. -/
theorem C8_same_instant_counterexample :
    ¬ ((pushNotification (pushNotification [] 5 "Alice joined" "join")
          5 "Bob joined" "join").map NotifEntry.id).Nodup ∧
    expireNotification
        (pushNotification (pushNotification [] 5 "Alice joined" "join")
          5 "Bob joined" "join") 5 = [] ∧
    (expireNotification
        (pushNotification (pushNotification [] 5 "Alice joined" "join")
          5 "Bob joined" "join") 5).length
      ≠ (pushNotification (pushNotification [] 5 "Alice joined" "join")
          5 "Bob joined" "join").length - 1 := by
  decide

theorem expireNotification_erase (q : List NotifEntry) (e : NotifEntry)
    (hnd : (q.map NotifEntry.id).Nodup) (he : e ∈ q) :
    expireNotification q e.id = q.erase e := by
  induction q with
  | nil => cases he
  | cons b q ih =>
    rw [List.map_cons, List.nodup_cons] at hnd
    obtain ⟨hb, hq⟩ := hnd
    rcases List.mem_cons.mp he with rfl | he'
    · rw [List.erase_cons_head]
      have hkeep : ∀ x ∈ q, x.id ≠ e.id := by
        intro x hx hc
        exact hb (hc ▸ List.mem_map_of_mem NotifEntry.id hx)
      calc expireNotification (e :: q) e.id
          = q.filter (fun n => n.id ≠ e.id) := by
            simp [expireNotification]
        _ = q := List.filter_eq_self.mpr (by
            intro x hx
            simpa using hkeep x hx)
    · have hbe : b.id ≠ e.id := by
        intro hc
        exact hb (hc ▸ List.mem_map_of_mem NotifEntry.id he')
      have hbne : ¬ (b == e) := by
        intro hc
        exact hbe (congrArg NotifEntry.id (eq_of_beq hc))
      rw [List.erase_cons_tail hbne]
      have hhead : expireNotification (b :: q) e.id
          = b :: expireNotification q e.id := by
        simp [expireNotification, hbe]
      rw [hhead, ih hq he']

/-- C8 amended: a pushed notification is appended tagged with the
clock value at push time as its identifier, and expiry removes by
identifier, so as long as all active identifiers are pairwise
distinct (pushes in distinct time units) each entry expires exactly
once: its timer removes exactly that entry — one element shorter, the
entry gone, every other entry kept.  Identifiers equal the push
times, so they are non-decreasing, but simultaneous pushes share an
identifier and expire together (see the counterexample). -/
theorem C8_notification_queue_expiry (q : List NotifEntry) (e : NotifEntry)
    (now : Nat) (message kind : String)
    (hnd : (q.map NotifEntry.id).Nodup) (he : e ∈ q) :
    pushNotification q now message kind = q ++ [⟨now, message, kind⟩] ∧
    expireNotification q e.id = q.erase e ∧
    (expireNotification q e.id).length = q.length - 1 ∧
    e ∉ expireNotification q e.id ∧
    (∀ x ∈ q, x ≠ e → x ∈ expireNotification q e.id) := by
  have herase := expireNotification_erase q e hnd he
  refine ⟨rfl, herase, ?_, ?_, ?_⟩
  · rw [herase]
    exact List.length_erase_of_mem he
  · intro hmem
    have := List.of_mem_filter hmem
    simp at this
  · intro x hx hxe
    refine List.mem_filter.mpr ⟨hx, ?_⟩
    have hid : x.id ≠ e.id := by
      intro hc
      exact hxe (List.inj_on_of_nodup_map hnd hx he hc)
    simpa using hid

/-- Witness for C8: with distinct push instants 1 and 2, expiring the
first entry removes exactly that entry and keeps the second. -/
theorem C8_notification_queue_expiry_witness :
    expireNotification
        [⟨1, "Alice joined", "join"⟩, ⟨2, "Bob left", "leave"⟩] 1
      = List.erase [⟨1, "Alice joined", "join"⟩, ⟨2, "Bob left", "leave"⟩]
          ⟨1, "Alice joined", "join"⟩ :=
  (C8_notification_queue_expiry
    [⟨1, "Alice joined", "join"⟩, ⟨2, "Bob left", "leave"⟩]
    ⟨1, "Alice joined", "join"⟩ 0 "x" "join"
    (by decide) (by decide)).2.1

/-- Counterexample to C9 as stated: with an empty store, the
interleaving in which both first-callers run their existence check
before either continuation stores a meeting (schedule request 1,
request 2, request 1, request 2 — each create suspends at its
provider await) issues two provider-side meeting creations, and the
two callers are answered with different meetings for the same title.
The create-or-fetch sequence has no per-title mutual exclusion. -/
theorem C9_concurrent_create_counterexample :
    (runSchedule ⟨[], .ready sampleMeeting, .ready sampleMeetingB, 0⟩ "ROOM1"
        [true, false, true, false]).providerCreates = 2 ∧
    (runSchedule ⟨[], .ready sampleMeeting, .ready sampleMeetingB, 0⟩ "ROOM1"
        [true, false, true, false]).phase1 = .finished sampleMeeting ∧
    (runSchedule ⟨[], .ready sampleMeeting, .ready sampleMeetingB, 0⟩ "ROOM1"
        [true, false, true, false]).phase2 = .finished sampleMeetingB ∧
    sampleMeeting.meetingId ≠ sampleMeetingB.meetingId := by
  decide

/-- C9 amended: creation is idempotent only in the sequential model —
when the first create request runs to completion before the second
starts, exactly one provider-side meeting is created and both callers
are answered with the same meeting; but the handlers take no per-title
lock, so interleaved first-callers that both pass the existence check
before either stores trigger duplicate provider-side creation (see the
counterexample). -/
theorem C9_sequential_create_single (title : String) (mA mB : ProviderMeeting) :
    (runSchedule ⟨[], .ready mA, .ready mB, 0⟩ title
        [true, true, false, false]).providerCreates = 1 ∧
    (runSchedule ⟨[], .ready mA, .ready mB, 0⟩ title
        [true, true, false, false]).phase1 = .finished mA ∧
    (runSchedule ⟨[], .ready mA, .ready mB, 0⟩ title
        [true, true, false, false]).phase2 = .finished mA := by
  simp [runSchedule, concStep, phaseStep, lookupKey, setKey]

end MediCall
